import Mathlib

/-
Shallow embedding of the qr-sync-telegram-bot webhook handler
(src/handler.js).  The Lambda entry point `message` parses the webhook
body, runs the DynamoDB-backed idempotency gate `checkAlreadyHandled`,
routes the message (`handleIncomingMessage`), and for photos runs the
download / Jimp-read / jsQR pipeline (`decodePhoto`, `decodeBitmap`)
before replying.  Collaborator outcomes (DynamoDB record, file download,
image read, jsQR result, vCard parsing) are supplied by an `Env` record;
outbound bot calls are collected as a trace of `Action`s, and files left
in the temporary directory are tracked explicitly.
-/

namespace QrSync

/-- A JavaScript exception thrown inside the handler: `typeError` models a
property access on `undefined`/`null`, `ioError` a rejected collaborator
promise (network, unreadable image, ...). -/
inductive JSErr where
  | typeError
  | ioError
  deriving Repr, DecidableEq

/-- One outbound call made through the Telegram bot client. -/
inductive Action where
  | sendMessage (chatId : Int) (text : String) (parseMode : Option String)
      (replyTo : Option Int)
  | sendContact (chatId : Int) (phoneNumber : String) (firstName : String)
      (vcard : String) (replyTo : Option Int)
  | downloadFile (fileId : String)
  deriving Repr, DecidableEq

/-- Whether an action is a user-visible outbound message (a message or a
contact card in the chat, as opposed to a file download). -/
def Action.isUserVisible : Action → Bool
  | .sendMessage .. => true
  | .sendContact .. => true
  | .downloadFile _ => false

/-- Whether an action is the photo download. -/
def Action.isDownload : Action → Bool
  | .downloadFile _ => true
  | _ => false

/-- Whether an action is a contact card. -/
def Action.isContact : Action → Bool
  | .sendContact .. => true
  | _ => false

/-- Whether an action is sent as a reply to a specific message
(`reply_to_message_id` set). -/
def Action.isReply : Action → Bool
  | .sendMessage _ _ _ (some _) => true
  | .sendContact _ _ _ _ (some _) => true
  | _ => false

/-- One photo-size variant of a Telegram photo message. -/
structure PhotoSize where
  file_id : String
  width : Int
  height : Int
  deriving Repr, DecidableEq

/-- The chat a message belongs to. -/
structure Chat where
  id : Int
  deriving Repr, DecidableEq

/-- A Telegram message as the handler reads it: `text` and `photo` are
absent (`none`) when the JSON field is missing. -/
structure Msg where
  chat : Chat
  message_id : Int
  text : Option String
  photo : Option (List PhotoSize)
  deriving Repr, DecidableEq

/-- The parsed webhook body: `update_id` and `message` may be absent. -/
structure Body where
  update_id : Option Int
  message : Option Msg
  deriving Repr, DecidableEq

/-- The pixel bitmap produced by Jimp. -/
structure Bitmap where
  data : List Nat
  width : Int
  height : Int
  deriving Repr, DecidableEq

/-- A Jimp image, carrying its bitmap. -/
structure JimpImage where
  bitmap : Bitmap
  deriving Repr, DecidableEq

/-- The object jsQR returns when it finds a code. -/
structure QRData where
  data : String
  deriving Repr, DecidableEq

/-- One entry of a parsed vCard field. -/
structure VEntry where
  value : String
  deriving Repr, DecidableEq

/-- A parsed vCard as `vcard-parser` returns it: each field is an optional
list of entries. -/
structure Card where
  fn : Option (List VEntry)
  tel : Option (List VEntry)
  deriving Repr, DecidableEq

/-- The collaborator outcomes of one invocation: the DynamoDB record
(`none` = no record, `some none` = record without the attribute), the
configured size limit, the download / image-read outcomes, the jsQR result
(`none` models jsQR returning null) and the vCard parser. -/
structure Env where
  store : Option (Option Int)
  maxPhotoSize : Int
  download : Except JSErr String
  jimpRead : Except JSErr JimpImage
  jsqr : Option QRData
  vcardParse : String → Card

/-- The Lambda HTTP response value. -/
structure Response where
  statusCode : Nat
  body : String
  deriving Repr, DecidableEq

/-- The constant acknowledgement response of src/handler.js. -/
def response : Response :=
  ⟨200, "\x7b\"done\":true\x7d"⟩

instance instDecEqExcept {ε α : Type} [DecidableEq ε] [DecidableEq α] :
    DecidableEq (Except ε α) := fun x y =>
  match x, y with
  | .error a, .error b => decidable_of_iff (a = b) (by simp)
  | .error _, .ok _ => isFalse (by simp)
  | .ok _, .error _ => isFalse (by simp)
  | .ok a, .ok b => decidable_of_iff (a = b) (by simp)

/-- Outcome of a handler step: the JS return value (or the exception it
threw), the files left in the temporary directory, and the outbound bot
calls made, in order. -/
structure Eff (α : Type) where
  result : Except JSErr α
  tmpLeft : List String
  actions : List Action
  deriving Repr, DecidableEq

/-- The overall outcome of one Lambda invocation: the returned response (or
the exception that escaped the handler), the DynamoDB record afterwards,
leftover temporary files, and the outbound bot calls. -/
structure RunResult where
  response : Except JSErr Response
  store : Option (Option Int)
  tmpLeft : List String
  actions : List Action
  deriving Repr, DecidableEq

/-- JavaScript `a < b` where either side may be `undefined`: any comparison
with `undefined` is false. -/
def jsLt : Option Int → Option Int → Bool
  | some a, some b => a < b
  | _, _ => false

/-- JavaScript truthiness of `message.text` (absent or empty string is
falsy). -/
def jsTruthyText : Option String → Bool
  | none => false
  | some s => s != ""

/-- The guard `message.photo && message.photo.length > 0`. -/
def jsTruthyPhoto : Option (List PhotoSize) → Bool
  | none => false
  | some l => l.length > 0

/-- JavaScript `a || b` on strings (empty string is falsy). -/
def jsOrString (a b : String) : String :=
  if a = "" then b else a

/-- sendErrorMessage: the generic error message sent from the catch path
and from the duplicate path. -/
def sendErrorMessage (chatId : Int) : Action :=
  Action.sendMessage chatId "There was a problem with your request." none none

/-- sendMarkdownMessage: a Markdown message with no reply target. -/
def sendMarkdownMessage (chatId : Int) (text : String) : Action :=
  Action.sendMessage chatId text (some "Markdown") none

/-- sendMarkdownReply: a Markdown message replying to `messageId`. -/
def sendMarkdownReply (chatId : Int) (messageId : Int) (text : String) : Action :=
  Action.sendMessage chatId text (some "Markdown") (some messageId)

/-- checkAlreadyHandled: reads the `latest_update_id` record, and when
`latest < current` writes `current` back and returns false (new update);
otherwise returns true (skip).  When the record is missing entirely,
`result.Item` is `undefined` and the attribute access throws.  Returns the
JS result paired with the record after the call. -/
def checkAlreadyHandled (store : Option (Option Int)) (current : Option Int) :
    Except JSErr (Bool × Option (Option Int)) :=
  match store with
  | none => Except.error JSErr.typeError
  | some latest =>
    if jsLt latest current then
      Except.ok (false, some current)
    else
      Except.ok (true, some latest)

/-- The name and telephone extracted from a vCard. -/
structure ContactProperties where
  name : String
  telephone : String
  deriving Repr, DecidableEq

/-- extractProperties: folds over the parsed fn and tel entries, a later
non-blank value overwriting the accumulator, starting from the fixed
defaults. -/
def extractProperties (parse : String → Card) (vcard : String) :
    ContactProperties :=
  let card := parse vcard
  let name := (card.fn.getD []).foldl
    (fun acc fn => if fn.value.trim != "" then fn.value else acc) "No name found"
  let telephone := (card.tel.getD []).foldl
    (fun acc tel => if tel.value.trim != "" then tel.value else acc) "123456789"
  ⟨name, telephone⟩

/-- sendContactReply: extracts the contact properties and sends a contact
card with the raw vCard attached, replying to `messageId`. -/
def sendContactReply (parse : String → Card) (chatId : Int) (messageId : Int)
    (vcard : String) : Action :=
  let properties := extractProperties parse vcard
  Action.sendContact chatId properties.telephone properties.name vcard
    (some messageId)

/-- The /start reply text. -/
def startText : String :=
  "Hi, I'm QR Sync Bot! I can decode your QR codes."

/-- The /about reply text. -/
def aboutText : String :=
  "I was created by @emilioschepis. You can find my code on [GitHub](https://github.com/emilioschepis/qr-sync-telegram-bot)."

/-- The /app reply text (template-literal line continuations keep the
leading spaces of the follow-up lines). -/
def appText : String :=
  "Are you on Android? Download the [QR Sync app](https://play.google.com/store/apps/details?id=com.emilioschepis.qrsync)!      \nIt is completely free and [open source](https://github.com/emilioschepis/qrsync).      \nYou'll be able to scan a wide variety of codes keeping them synced in the cloud."

/-- The size-limit refusal text. -/
def sizeLimitText (limit : Int) : String :=
  "I'm sorry, I will only decode images up to " ++ toString limit ++ "x"
    ++ toString limit ++ "."

/-- The in-progress notice sent before decoding. -/
def decodingStartText : String :=
  "Give me a second, I'm decoding your photo..."

/-- The reply sent when the decode result is the empty string. -/
def emptyText : String :=
  "The code you sent could not be decoded."

/-- The announcement preceding a contact reply. -/
def contactDoneText : String :=
  "*I decoded your QR code!*\nHere's the contact it contains:"

/-- The announcement preceding a plain-text reply. -/
def textDoneText : String :=
  "*I decoded your QR code!*\nHere's the text it contains:"

/-- handleTextMessage: the switch on `message.text`; the three known
commands each send one Markdown message, anything else is a no-op. -/
def handleTextMessage (m : Msg) : List Action :=
  match m.text with
  | none => []
  | some t =>
    if t = "/start" then
      [sendMarkdownMessage m.chat.id startText]
    else if t = "/about" then
      [sendMarkdownMessage m.chat.id aboutText]
    else if t = "/app" then
      [sendMarkdownMessage m.chat.id appText]
    else
      []

/-- decodeBitmap: `jsQR(bitmap.data, bitmap.width, bitmap.height)` followed
by `result.data || ''`.  When jsQR returns null, the `.data` access throws
a TypeError, which rejects the promise. -/
def decodeBitmap (env : Env) (bitmap : Bitmap) : Except JSErr String :=
  match env.jsqr with
  | none => Except.error JSErr.typeError
  | some result => Except.ok (jsOrString result.data "")

/-- decodePhoto: downloads the file to the temporary directory, reads it
with Jimp, decodes the bitmap, and removes the file with `fs.unlinkSync` —
the unlink is reached only when every prior step succeeded. -/
def decodePhoto (env : Env) (photo : PhotoSize) : Eff String :=
  match env.download with
  | .error e => ⟨.error e, [], [Action.downloadFile photo.file_id]⟩
  | .ok path =>
    match env.jimpRead with
    | .error e => ⟨.error e, [path], [Action.downloadFile photo.file_id]⟩
    | .ok image =>
      match decodeBitmap env image.bitmap with
      | .error e => ⟨.error e, [path], [Action.downloadFile photo.file_id]⟩
      | .ok result => ⟨.ok result, [], [Action.downloadFile photo.file_id]⟩

/-- The branch of handlePhotoMessage on the decode result: the empty string
gets the could-not-be-decoded reply; a vCard payload gets an announcement
and a contact reply; any other text gets an announcement and the raw text
as a reply. -/
def handleDecodedData (parse : String → Card) (chatId : Int) (messageId : Int)
    (data : String) : List Action :=
  if data = "" then
    [sendMarkdownReply chatId messageId emptyText]
  else if data.startsWith "BEGIN:VCARD" then
    [sendMarkdownMessage chatId contactDoneText,
     sendContactReply parse chatId messageId data]
  else
    [sendMarkdownMessage chatId textDoneText,
     sendMarkdownReply chatId messageId data]

/-- handlePhotoMessage: selects the last photo-size variant, refuses it
when a dimension exceeds MAX_PHOTO_SIZE, and otherwise sends the
in-progress notice, decodes, and branches on the result.  Accessing
`.width` of `photo[length - 1]` on an empty array throws. -/
def handlePhotoMessage (env : Env) (m : Msg) : Eff Unit :=
  match (m.photo.getD []).getLast? with
  | none => ⟨.error JSErr.typeError, [], []⟩
  | some photo =>
    let sizeLimit := env.maxPhotoSize
    if photo.width > sizeLimit ∨ photo.height > sizeLimit then
      ⟨.ok (), [], [sendMarkdownMessage m.chat.id (sizeLimitText sizeLimit)]⟩
    else
      let d := decodePhoto env photo
      match d.result with
      | .error e =>
        ⟨.error e, d.tmpLeft,
          sendMarkdownMessage m.chat.id decodingStartText :: d.actions⟩
      | .ok data =>
        ⟨.ok (), d.tmpLeft,
          sendMarkdownMessage m.chat.id decodingStartText :: d.actions
            ++ handleDecodedData env.vcardParse m.chat.id m.message_id data⟩

/-- handleIncomingMessage: routes to the text handler when `message.text`
is truthy, else to the photo handler when the photo array is non-empty,
else resolves doing nothing. -/
def handleIncomingMessage (env : Env) (m : Msg) : Eff Unit :=
  if jsTruthyText m.text then
    ⟨.ok (), [], handleTextMessage m⟩
  else if jsTruthyPhoto m.photo then
    handlePhotoMessage env m
  else
    ⟨.ok (), [], []⟩

/-- message: the Lambda entry point.  `body.message.chat.id` is read
before the try block, so a body without a message throws out of the
handler.  Inside the try, a true result of checkAlreadyHandled (old
update) sends the generic error message; a thrown error is caught and
also sends it; the finally block returns the fixed 200 response. -/
def message (env : Env) (body : Body) : RunResult :=
  match body.message with
  | none => ⟨.error JSErr.typeError, env.store, [], []⟩
  | some msg =>
    let chatId := msg.chat.id
    match checkAlreadyHandled env.store body.update_id with
    | .error _ => ⟨.ok response, env.store, [], [sendErrorMessage chatId]⟩
    | .ok (true, store) => ⟨.ok response, store, [], [sendErrorMessage chatId]⟩
    | .ok (false, store) =>
      let r := handleIncomingMessage env msg
      match r.result with
      | .error _ =>
        ⟨.ok response, store, r.tmpLeft, r.actions ++ [sendErrorMessage chatId]⟩
      | .ok _ => ⟨.ok response, store, r.tmpLeft, r.actions⟩

/-- Spec-side rendering of the extraction contract, for comparison with
extractProperties: the last entry whose value is non-blank, else the
default. -/
def specLastNonBlank (entries : List VEntry) (dflt : String) : String :=
  match entries.reverse.find? (fun e => e.value.trim != "") with
  | some e => e.value
  | none => dflt

/-- A vCard parser stub returning an empty card. -/
def parse0 : String → Card := fun _ => ⟨none, none⟩

/-- A small concrete bitmap. -/
def bitmap0 : Bitmap := ⟨[], 640, 480⟩

/-- A Jimp image holding bitmap0. -/
def jimp0 : JimpImage := ⟨bitmap0⟩

/-- A photo variant within the 1280 size limit. -/
def photoSmall : PhotoSize := ⟨"file-small", 640, 480⟩

/-- A photo variant exceeding the 1280 size limit in width. -/
def photoBig : PhotoSize := ⟨"file-big", 2000, 900⟩

/-- A bare message (no text, no photo) in chat 10. -/
def msgDup : Msg := ⟨⟨10⟩, 99, none, none⟩

/-- A photo message carrying photoSmall. -/
def msgPhoto : Msg := ⟨⟨10⟩, 99, none, some [photoSmall]⟩

/-- A photo message carrying photoBig. -/
def msgBigPhoto : Msg := ⟨⟨10⟩, 99, none, some [photoBig]⟩

/-- A message carrying both a command text and a photo. -/
def msgBoth : Msg := ⟨⟨10⟩, 99, some "/start", some [photoSmall]⟩

/-- An environment whose stored marker is 5. -/
def envDup : Env :=
  ⟨some (some 5), 1280, Except.ok "/tmp/qr0", Except.ok jimp0,
    some ⟨"hello"⟩, parse0⟩

/-- An environment whose marker record is missing entirely. -/
def envMissing : Env :=
  ⟨none, 1280, Except.ok "/tmp/qr0", Except.ok jimp0, some ⟨"hello"⟩, parse0⟩

/-- An environment where Jimp fails to read the downloaded image. -/
def envJimpFail : Env :=
  ⟨some (some 0), 1280, Except.ok "/tmp/qr1", Except.error JSErr.ioError,
    some ⟨"hello"⟩, parse0⟩

/-- An environment where the whole decode pipeline succeeds. -/
def envOk : Env :=
  ⟨some (some 0), 1280, Except.ok "/tmp/qr1", Except.ok jimp0,
    some ⟨"hello"⟩, parse0⟩

/-- An environment where jsQR finds no code (returns null). -/
def envNoCode : Env :=
  ⟨some (some 0), 1280, Except.ok "/tmp/qr2", Except.ok jimp0, none, parse0⟩

/-- A webhook body redelivering update id 5 (equal to the envDup marker). -/
def bodyDup : Body := ⟨some 5, some msgDup⟩

/-- A webhook body carrying update id 1 and a bare message. -/
def bodyFirst : Body := ⟨some 1, some msgDup⟩

/-- A webhook body with no message field. -/
def bodyNoMsg : Body := ⟨some 1, none⟩

/-- A webhook body carrying update id 6 and the photo message. -/
def bodyPhoto : Body := ⟨some 6, some msgPhoto⟩

/-- A parsed card with one name and one telephone entry. -/
def cardJohn : Card := ⟨some [⟨"John Doe"⟩], some [⟨"+1555"⟩]⟩

/-- A vCard parser stub returning cardJohn. -/
def parseJohn : String → Card := fun _ => cardJohn

/-- A concrete vCard payload. -/
def vcardSample : String :=
  "BEGIN:VCARD\nVERSION:3.0\nFN:John Doe\nTEL:+1555\nEND:VCARD"

/-- C2: checkAlreadyHandled, given a stored marker value and an incoming
update id, advances the marker to the id and reports the update as new
(returns false) exactly when the id is strictly greater than the marker;
otherwise it reports skip (returns true) and leaves the marker
unchanged. -/
theorem claim2_gate_advances_iff_greater (l c : Int) :
    checkAlreadyHandled (some (some l)) (some c)
      = if l < c then Except.ok (false, some (some c))
        else Except.ok (true, some (some l)) := by
  by_cases h : l < c <;> simp [checkAlreadyHandled, jsLt, h]

/-- C3: when the marker record is absent from the store, checkAlreadyHandled
does not initialize the marker and process the update: the attribute access
throws a TypeError, and the invocation ends with the generic error message,
the marker still missing and the message never routed. -/
theorem claim3_missing_marker_throws :
    checkAlreadyHandled none (some 1) = Except.error JSErr.typeError
      ∧ message envMissing bodyFirst
          = ⟨Except.ok response, none, [], [sendErrorMessage 10]⟩ :=
  ⟨rfl, rfl⟩

/-- C1 counterexample: redelivering update id 5 while the stored marker is
5 produces a user-visible outbound message, not zero — the duplicate path
calls sendErrorMessage. -/
theorem claim1_counterexample :
    (message envDup bodyDup).actions.filter Action.isUserVisible ≠ [] := by
  decide

/-- C1 (amended): for every update id less than or equal to the stored
marker, a second invocation skips processing (the message is never routed,
the marker is unchanged, no processing reply is sent) but sends exactly one
user-visible outbound message: the generic error message. -/
theorem claim1_duplicate_skips_processing (env : Env) (body : Body)
    (msg : Msg) (l c : Int) (hmsg : body.message = some msg)
    (hid : body.update_id = some c) (hstore : env.store = some (some l))
    (hle : c ≤ l) :
    message env body
      = ⟨Except.ok response, env.store, [], [sendErrorMessage msg.chat.id]⟩ := by
  have hgate : checkAlreadyHandled env.store body.update_id
      = Except.ok (true, some (some l)) := by
    rw [hstore, hid]
    simp [checkAlreadyHandled, jsLt, not_lt.mpr hle]
  simp only [message, hmsg, hgate]
  rw [hstore]

/-- C1 witness: the amended claim at the concrete duplicate input. -/
theorem claim1_witness :
    message envDup bodyDup
      = ⟨Except.ok response, some (some 5), [], [sendErrorMessage 10]⟩ :=
  claim1_duplicate_skips_processing envDup bodyDup msgDup 5 5 rfl rfl rfl
    (by decide)

/-- C4: the downloaded temporary file is not removed on every exit path of
the decode step — when the image read fails the file stays behind, while a
completed decode does remove it. -/
theorem claim4_tmp_file_leak_on_failure :
    (decodePhoto envJimpFail photoSmall).result = Except.error JSErr.ioError
      ∧ (decodePhoto envJimpFail photoSmall).tmpLeft = ["/tmp/qr1"]
      ∧ (decodePhoto envOk photoSmall).tmpLeft = [] :=
  ⟨rfl, rfl, rfl⟩

/-- C5: when jsQR finds no code and returns null, the pipeline does not
turn it into the decode result of the empty string: the `.data` access
throws, and the invocation sends the generic error message instead of the
could-not-be-decoded reply. -/
theorem claim5_null_result_throws :
    decodeBitmap envNoCode bitmap0 = Except.error JSErr.typeError
      ∧ (message envNoCode bodyPhoto).actions
          = [sendMarkdownMessage 10 decodingStartText,
             Action.downloadFile "file-small", sendErrorMessage 10]
      ∧ sendMarkdownReply 10 99 emptyText ∉ (message envNoCode bodyPhoto).actions := by
  refine ⟨rfl, rfl, ?_⟩
  decide

/-- C6 counterexample: an invocation whose parsed body has no message field
throws before the try block (reading body.message.chat.id), so the handler
does not return the 200 acknowledgement. -/
theorem claim6_counterexample :
    (message envDup bodyNoMsg).response ≠ Except.ok response := by
  decide

/-- C6 (amended): for every invocation whose parsed body carries a message,
the handler returns the fixed 200 JSON acknowledgement whatever the
internal outcome — duplicate, collaborator failure, or success. -/
theorem claim6_always_200 (env : Env) (body : Body) (msg : Msg)
    (hmsg : body.message = some msg) :
    (message env body).response = Except.ok response := by
  simp only [message, hmsg]
  rcases hgate : checkAlreadyHandled env.store body.update_id with e | ⟨b, s⟩
  · rfl
  · cases b
    · rcases hr : (handleIncomingMessage env msg).result with e2 | u
      · simp [hr]
      · simp [hr]
    · rfl

/-- C6 witness: the amended claim at a concrete input whose gate throws. -/
theorem claim6_witness :
    (message envMissing bodyFirst).response = Except.ok response :=
  claim6_always_200 envMissing bodyFirst msgDup rfl

/-- C7: when the last photo-size variant has a dimension strictly above
MAX_PHOTO_SIZE, handlePhotoMessage sends exactly the size-limit message and
performs no download (and hence no decode). -/
theorem claim7_oversized_one_reply (env : Env) (m : Msg)
    (ps : List PhotoSize) (photo : PhotoSize) (hp : m.photo = some ps)
    (hl : ps.getLast? = some photo)
    (hsize : photo.width > env.maxPhotoSize ∨ photo.height > env.maxPhotoSize) :
    handlePhotoMessage env m
        = ⟨Except.ok (), [],
            [sendMarkdownMessage m.chat.id (sizeLimitText env.maxPhotoSize)]⟩
      ∧ ∀ f, Action.downloadFile f ∉ (handlePhotoMessage env m).actions := by
  have h1 : handlePhotoMessage env m
      = ⟨Except.ok (), [],
          [sendMarkdownMessage m.chat.id (sizeLimitText env.maxPhotoSize)]⟩ := by
    simp only [handlePhotoMessage, hp, Option.getD_some, hl]
    rw [if_pos hsize]
  refine ⟨h1, ?_⟩
  rw [h1]
  intro f
  simp [sendMarkdownMessage]

/-- C7 witness: the size-limit refusal at a concrete 2000x900 photo with
limit 1280. -/
theorem claim7_witness :
    handlePhotoMessage envDup msgBigPhoto
        = ⟨Except.ok (), [], [sendMarkdownMessage 10 (sizeLimitText 1280)]⟩
      ∧ ∀ f, Action.downloadFile f ∉ (handlePhotoMessage envDup msgBigPhoto).actions :=
  claim7_oversized_one_reply envDup msgBigPhoto [photoBig] photoBig rfl rfl
    (by decide)

/-- C8: a non-empty decode result produces exactly two outbound actions in
order — the announcement, then either the contact reply (extracted name and
telephone, raw payload attached, replying to the original message) when the
result starts with BEGIN:VCARD, or the raw text replying to the original
message. -/
theorem claim8_nonempty_two_actions (parse : String → Card)
    (chatId messageId : Int) (data : String) (hne : data ≠ "") :
    handleDecodedData parse chatId messageId data
      = (if data.startsWith "BEGIN:VCARD" then
          [sendMarkdownMessage chatId contactDoneText,
           Action.sendContact chatId (extractProperties parse data).telephone
             (extractProperties parse data).name data (some messageId)]
        else
          [sendMarkdownMessage chatId textDoneText,
           sendMarkdownReply chatId messageId data]) := by
  simp only [handleDecodedData, if_neg hne, sendContactReply]

/-- C8 witness: the two ordered actions at a concrete vCard payload. -/
theorem claim8_witness :
    handleDecodedData parseJohn 10 99 vcardSample
      = (if vcardSample.startsWith "BEGIN:VCARD" then
          [sendMarkdownMessage 10 contactDoneText,
           Action.sendContact 10 (extractProperties parseJohn vcardSample).telephone
             (extractProperties parseJohn vcardSample).name vcardSample (some 99)]
        else
          [sendMarkdownMessage 10 textDoneText,
           sendMarkdownReply 10 99 vcardSample]) :=
  claim8_nonempty_two_actions parseJohn 10 99 vcardSample (by decide)

/-- Helper: the overwrite-if-non-blank fold equals the last non-blank entry
value, defaulting to the accumulator. -/
theorem foldl_eq_specLastNonBlank (l : List VEntry) (dflt : String) :
    l.foldl (fun acc e => if e.value.trim != "" then e.value else acc) dflt
      = specLastNonBlank l dflt := by
  induction l using List.reverseRecOn with
  | nil => rfl
  | append_singleton l e ih =>
    rw [List.foldl_append, List.foldl_cons, List.foldl_nil]
    unfold specLastNonBlank
    rw [List.reverse_append]
    simp only [List.reverse_cons, List.reverse_nil, List.nil_append,
      List.singleton_append, List.find?_cons]
    cases hp : e.value.trim != "" with
    | true => simp [hp]
    | false =>
      simp only [hp, Bool.false_eq_true, if_false]
      rw [ih]
      rfl

/-- C9: extractProperties returns as name the last non-blank fn entry value
(the fixed placeholder when the field is absent or all entries blank) and
as telephone the last non-blank tel entry value (the fixed placeholder
phone when absent or all blank). -/
theorem claim9_extract_last_nonblank (parse : String → Card) (vcard : String) :
    (extractProperties parse vcard).name
        = specLastNonBlank ((parse vcard).fn.getD []) "No name found"
      ∧ (extractProperties parse vcard).telephone
        = specLastNonBlank ((parse vcard).tel.getD []) "123456789" := by
  unfold extractProperties
  exact ⟨foldl_eq_specLastNonBlank _ _, foldl_eq_specLastNonBlank _ _⟩

/-- C10: when a message carries both a non-empty text and a non-empty photo
sequence, the router dispatches only to the text handler: the outcome is
exactly the text-handler actions, and none of them is a download, a contact
card, or a reply to the original message. -/
theorem claim10_text_wins (env : Env) (m : Msg) (t : String)
    (ps : List PhotoSize) (ht : m.text = some t) (hne : t ≠ "")
    (hp : m.photo = some ps) (hps : ps ≠ []) :
    handleIncomingMessage env m = ⟨Except.ok (), [], handleTextMessage m⟩
      ∧ ∀ a ∈ (handleIncomingMessage env m).actions,
          a.isDownload = false ∧ a.isContact = false ∧ a.isReply = false := by
  have htruthy : jsTruthyText m.text = true := by
    rw [ht]; simp [jsTruthyText, hne]
  have h1 : handleIncomingMessage env m
      = ⟨Except.ok (), [], handleTextMessage m⟩ := by
    simp [handleIncomingMessage, htruthy]
  refine ⟨h1, ?_⟩
  rw [h1]
  intro a ha
  simp only [handleTextMessage, ht] at ha
  split_ifs at ha <;>
    simp_all [sendMarkdownMessage, Action.isDownload, Action.isContact,
      Action.isReply]

/-- C10 witness: a message with the /start text and a photo goes to the
text handler only. -/
theorem claim10_witness :
    handleIncomingMessage envDup msgBoth
        = ⟨Except.ok (), [], handleTextMessage msgBoth⟩
      ∧ ∀ a ∈ (handleIncomingMessage envDup msgBoth).actions,
          a.isDownload = false ∧ a.isContact = false ∧ a.isReply = false :=
  claim10_text_wins envDup msgBoth "/start" [photoSmall] rfl (by decide) rfl
    (by decide)

end QrSync
